import Mathlib

set_option linter.unusedVariables false

namespace Cadence

/-! Shallow embedding of the cadence cross-cluster visibility pipeline:
the standby transfer-queue processor
(`src/service/history/transferQueueStandbyProcessor.go`,
`src/service/history/transferQueueProcessorBase.go`) and the
Elasticsearch bulk indexing processor (`src/unnamed/part_000`, package
`indexer`).  Collaborator calls (message bus publish, primary visibility
store writes, matching pushes, workflow-execution release) are recorded
in explicit traces; collaborator outcomes (domain cache lookups, publish
and store results, mutable-state loads) are inputs.  Constants declared
elsewhere in the repository are written out with their documented
values. -/

/-- Sentinel event id `common.EmptyEventID`: the awaited started event has
not been replicated yet.  Modelled from the spec: the constant is declared
outside the extracted sources; the spec uses it only as the
"not yet started" sentinel, so any fixed value serves. -/
def EmptyEventID : Int := -23

/-- First event id `common.FirstEventID`.  Modelled from the spec: declared
outside the extracted sources; the decision handler marks a workflow as open
when `scheduleID ≤ FirstEventID + 2`. -/
def FirstEventID : Int := 1

/-- Timeout cap `common.MaxTaskTimeout` applied through `common.MinInt32`.
Modelled from the spec: declared outside the extracted sources; only the
`min` capping behaviour is relevant. -/
def MaxTaskTimeout : Int := 31622400

/-- `secondsInDay`, used to convert the domain retention from days to
seconds.  Modelled from the spec: the constant is declared outside the
extracted sources; the spec fixes the conversion factor at 86400. -/
def secondsInDay : Int := 86400

/-- Fallback domain name used when the domain cache reports not-found
(`transferQueueProcessorBase.go`). -/
def defaultDomainName : String := "defaultDomainName"

/-- Document version constants `versionForOpen`, `versionForClose`,
`versionForDelete`.  Modelled from the spec: they are declared outside the
extracted sources; the spec fixes only `Open < Closed < Delete`, which the
chosen values satisfy. -/
def versionForOpen : Int := 0

/-- See `versionForOpen`. -/
def versionForClose : Int := 1

/-- See `versionForOpen`. -/
def versionForDelete : Int := 2

/-- Thrift enum `indexer.VisibilityMsgType` (`Open`, `Closed`, `Delete`). -/
inductive VisibilityMsgType where
  | msgOpen
  | msgClosed
  | msgDelete
deriving DecidableEq, Repr

/-- Thrift struct `indexer.VisibilityMsg`: the visibility wire message.
All close fields are optional; `Open` messages leave them unset. -/
structure VisibilityMsg where
  msgType : VisibilityMsgType
  domainID : String
  workflowID : String
  runID : String
  workflowType : String
  startTime : Int
  closeTime : Option Int
  closeStatus : Option Int
  historyLength : Option Int
deriving DecidableEq, Repr

/-- Thrift-generated `VisibilityMsgType.String()`. -/
def visibilityMsgTypeString (t : VisibilityMsgType) : String :=
  match t with
  | VisibilityMsgType.msgOpen => "Open"
  | VisibilityMsgType.msgClosed => "Closed"
  | VisibilityMsgType.msgDelete => "Delete"

/-- `convertESVersionToVisibilityMsgType` (`src/unnamed/part_000`): maps the
numeric document version back to the message-type tag string, `""` for an
unknown version. -/
def convertESVersionToVisibilityMsgType (version : Int) : String :=
  if version = versionForOpen then visibilityMsgTypeString VisibilityMsgType.msgOpen
  else if version = versionForClose then visibilityMsgTypeString VisibilityMsgType.msgClosed
  else if version = versionForDelete then visibilityMsgTypeString VisibilityMsgType.msgDelete
  else ""

/-- `esRequestTypeIndex` constant. -/
def esRequestTypeIndex : String := "index"

/-- `esRequestTypeUpdate` constant. -/
def esRequestTypeUpdate : String := "update"

/-- `esRequestTypeDelete` constant. -/
def esRequestTypeDelete : String := "delete"

/-- The parsed single-key header line of a bulk request source: the key of
the one-entry JSON object (`op`) and the fields of its value.  The source
reads it as `map[string]map[string]interface\x7b\x7d`; the map holds exactly
one entry, whose key `getReqType` extracts. -/
structure ESBulkHeader where
  op : String
  index : String
  id : String
  typ : String
  version : Int
  versionType : String
deriving DecidableEq, Repr

/-- The optional second line of a bulk request source: absent
(`len(input) != 2`), present but failing to unmarshal, or a parsed
document. -/
inductive ESBody where
  | noBody
  | badBody
  | okBody (doc : VisibilityMsg)
deriving DecidableEq, Repr

/-- A bulk request source (`elastic.BulkableRequest.Source()`): header line
and optional body line.  `head = none` stands for a source whose header line
fails to unmarshal (or whose source retrieval errs); both are metered and
skipped identically. -/
structure ESRequestSource where
  head : Option ESBulkHeader
  body : ESBody
deriving DecidableEq, Repr

/-- A rebuilt `elastic.BulkIndexRequest`: `doc = none` models the zero-value
document used when the source had no body line. -/
structure BulkIndexRequest where
  index : String
  typ : String
  id : String
  versionType : String
  version : Int
  doc : Option VisibilityMsg
deriving DecidableEq, Repr

/-- A bulkable request the processor can rebuild.  The source only ever
rebuilds index requests (`getESRequest` has an empty `delete` case). -/
inductive ESBulkRequest where
  | indexReq (r : BulkIndexRequest)
deriving DecidableEq, Repr

/-- `getESRequest` (`src/unnamed/part_000`): rebuilds a bulkable request from
a request source.  Header unmarshal failure returns `nil`; body unmarshal
failure returns `nil`; the switch on `getReqType` rebuilds only for
`esRequestTypeIndex` — the `esRequestTypeDelete` case has an empty body and
falls through to `return nil`. -/
def getESRequest (input : ESRequestSource) : Option ESBulkRequest :=
  match input.head with
  | none => none
  | some h =>
    match input.body with
    | ESBody.badBody => none
    | bodyLine =>
      let doc : Option VisibilityMsg :=
        match bodyLine with
        | ESBody.okBody d => some d
        | _ => none
      if h.op = esRequestTypeIndex then
        some (ESBulkRequest.indexReq ⟨h.index, h.typ, h.id, h.versionType, h.version, doc⟩)
      else
        none

/-- `ConcurrentTxMap.Contains` on the in-flight map, modelled as an
association list from key to kafka-message handle id. -/
def containsKey (m : List (String × Nat)) (key : String) : Bool :=
  m.any (fun kv => kv.fst == key)

/-- `ConcurrentTxMap.Get` on the in-flight map. -/
def lookupKey (m : List (String × Nat)) (key : String) : Option Nat :=
  match m.find? (fun kv => kv.fst == key) with
  | some kv => some kv.snd
  | none => none

/-- `ConcurrentTxMap.Remove` on the in-flight map. -/
def removeKey (m : List (String × Nat)) (key : String) : List (String × Nat) :=
  m.filter (fun kv => !(kv.fst == key))

/-- Observable state of `esProcessorImpl`: the in-flight map
`mapToKafkaMsg`, the requests handed to `elastic.BulkProcessor.Add` (in
order), and the kafka handles `Ack()`ed (in order). -/
structure ESProcessorState where
  mapToKafkaMsg : List (String × Nat)
  submitted : List ESBulkRequest
  acked : List Nat
deriving DecidableEq, Repr

/-- `esProcessorImpl.Add`: a key already present means a bus-level duplicate
— ack the new handle and drop the request; otherwise record the handle and
submit the request to the bulk processor. -/
def esAdd (st : ESProcessorState) (request : ESBulkRequest) (key : String)
    (kafkaMsg : Nat) : ESProcessorState :=
  if containsKey st.mapToKafkaMsg key then
    ⟨st.mapToKafkaMsg, st.submitted, st.acked ++ [kafkaMsg]⟩
  else
    ⟨st.mapToKafkaMsg ++ [(key, kafkaMsg)], st.submitted ++ [request], st.acked⟩

/-- `esProcessorImpl.ackKafkaMsg`: a missing key is treated as a duplicate
kafka message and ignored; otherwise the stored handle is acked and the key
removed.  (The source's type-assertion fatal branch is unreachable here: the
map only ever holds kafka handles.) -/
def ackKafkaMsg (st : ESProcessorState) (key : String) : ESProcessorState :=
  match lookupKey st.mapToKafkaMsg key with
  | none => st
  | some kafkaMsg =>
    ⟨removeKey st.mapToKafkaMsg key, st.submitted, st.acked ++ [kafkaMsg]⟩

/-- One per-item entry of `elastic.BulkResponse.Items` (the single entry of
the op-keyed map): document id and HTTP status. -/
structure BulkResponseItem where
  id : String
  status : Int
deriving DecidableEq, Repr

/-- Per-item reconciliation of `bulkAfterAction` on the flush-success path
(`src/unnamed/part_000`): derive the message-type tag from the request
header's `version`, compose `key = res.Id + tag`; status in `[200,300)` or
`409` acks the stored handle via `ackKafkaMsg`; any other status re-submits
the request rebuilt by `getESRequest` (when the rebuild yields one) and acks
nothing.  A request whose source cannot be parsed is metered and skipped. -/
def bulkAfterItem (st : ESProcessorState) (src : ESRequestSource)
    (res : BulkResponseItem) : ESProcessorState :=
  match src.head with
  | none => st
  | some h =>
    let head := convertESVersionToVisibilityMsgType h.version
    let key := res.id ++ head
    if 200 ≤ res.status ∧ res.status < 300 then
      ackKafkaMsg st key
    else if res.status = 409 then
      ackKafkaMsg st key
    else
      match getESRequest src with
      | some r => ⟨st.mapToKafkaMsg, st.submitted ++ [r], st.acked⟩
      | none => st

/-- The flush-success branch of `bulkAfterAction` over a whole batch:
left fold of the per-item reconciliation. -/
def bulkAfterSuccess (st : ESProcessorState)
    (items : List (ESRequestSource × BulkResponseItem)) : ESProcessorState :=
  items.foldl (fun s p => bulkAfterItem s p.fst p.snd) st

/-- A resolved domain cache entry: name, per-workflow retention in days, and
the sampling policy getters (all keyed by workflow id, as in
`DomainCacheEntry`). -/
structure DomainEntry where
  name : String
  retentionDays : String → Int
  isSampledForLongerRetentionEnabled : String → Bool
  isSampledForLongerRetention : String → Bool

/-- Outcome of `shard.GetDomainCache().GetDomainByID`: found, the
`EntityNotExistsError` degradation case, or any other error (which
propagates). -/
inductive DomainCacheResult where
  | found (entry : DomainEntry)
  | entityNotExists
  | otherErr (n : Nat)

/-- Errors surfaced by the standby processing path: the two sentinel errors
`ErrTaskRetry` and `ErrTaskDiscarded`, and `generic n` for any other
(collaborator) error. -/
inductive StandbyError where
  | taskRetry
  | taskDiscarded
  | generic (n : Nat)
deriving DecidableEq, Repr

/-- `persistence.RecordWorkflowExecutionStartedRequest` as built by
`recordWorkflowStarted`. -/
structure RecordWorkflowExecutionStartedRequest where
  domainUUID : String
  domain : String
  workflowID : String
  runID : String
  workflowTypeName : String
  startTimestamp : Int
  workflowTimeout : Int
deriving DecidableEq, Repr

/-- `persistence.RecordWorkflowExecutionClosedRequest` as built by
`recordWorkflowClosed`. -/
structure RecordWorkflowExecutionClosedRequest where
  domainUUID : String
  domain : String
  workflowID : String
  runID : String
  workflowTypeName : String
  startTimestamp : Int
  closeTimestamp : Int
  status : Int
  historyLength : Int
  retentionSeconds : Int
deriving DecidableEq, Repr

/-- Transfer task types (`persistence.TransferTaskType*`). -/
inductive TaskType where
  | activityTask
  | decisionTask
  | closeExecution
  | cancelExecution
  | signalExecution
  | startChildExecution
deriving DecidableEq, Repr

/-- `persistence.TransferTaskInfo` restricted to the fields the standby
handlers read.  Timestamps are nanoseconds since the Unix epoch. -/
structure TransferTaskInfo where
  domainID : String
  workflowID : String
  runID : String
  taskType : TaskType
  taskList : String
  scheduleID : Int
  version : Int
  visibilityTimestamp : Int
deriving DecidableEq, Repr

/-- Collaborator calls a handler run makes, in order within each kind:
matching pushes and the visibility publishes/writes issued through the
processor base. -/
structure ActionTrace where
  pushedActivities : List (TransferTaskInfo × Int)
  pushedDecisions : List (TransferTaskInfo × String × Int)
  published : List VisibilityMsg
  startedWrites : List RecordWorkflowExecutionStartedRequest
  closedWrites : List RecordWorkflowExecutionClosedRequest
deriving DecidableEq, Repr

/-- The empty trace. -/
def emptyActionTrace : ActionTrace := ⟨[], [], [], [], []⟩

/-- Concatenation of traces, kind by kind. -/
def appendActionTrace (a b : ActionTrace) : ActionTrace :=
  ⟨a.pushedActivities ++ b.pushedActivities, a.pushedDecisions ++ b.pushedDecisions,
   a.published ++ b.published, a.startedWrites ++ b.startedWrites,
   a.closedWrites ++ b.closedWrites⟩

/-- Collaborator environment of the visibility producer glue: domain cache,
whether a visibility producer is configured, and the outcome each publish or
store write would report (`none` = success, `some n` = error `n`). -/
structure VisibilityEnv where
  domainCache : String → DomainCacheResult
  visibilityProducerConfigured : Bool
  publishResult : VisibilityMsg → Option Nat
  recordStartedResult : RecordWorkflowExecutionStartedRequest → Option Nat
  recordClosedResult : RecordWorkflowExecutionClosedRequest → Option Nat

/-- `transferQueueProcessorBase.recordWorkflowStarted`
(`src/service/history/transferQueueProcessorBase.go`): resolve the domain
(degrading to defaults on `EntityNotExistsError`, propagating other errors),
apply the sampled-for-longer-retention filter, publish an `Open` visibility
message when a producer is configured (propagating publish failure), then
write `RecordWorkflowExecutionStarted` to the primary visibility store. -/
def recordWorkflowStarted (env : VisibilityEnv)
    (domainID wid rid workflowTypeName : String)
    (startTimeUnixNano workflowTimeout : Int) :
    Except StandbyError Unit × ActionTrace :=
  match env.domainCache domainID with
  | DomainCacheResult.otherErr n => (Except.error (StandbyError.generic n), emptyActionTrace)
  | lookup =>
    let domain : String :=
      match lookup with
      | DomainCacheResult.found entry => entry.name
      | _ => defaultDomainName
    let isSampledEnabled : Bool :=
      match lookup with
      | DomainCacheResult.found entry => entry.isSampledForLongerRetentionEnabled wid
      | _ => false
    let inSample : Bool :=
      match lookup with
      | DomainCacheResult.found entry => entry.isSampledForLongerRetention wid
      | _ => false
    if isSampledEnabled && !inSample then
      (Except.ok (), emptyActionTrace)
    else
      let msg : VisibilityMsg :=
        ⟨VisibilityMsgType.msgOpen, domainID, wid, rid, workflowTypeName,
         startTimeUnixNano, none, none, none⟩
      let req : RecordWorkflowExecutionStartedRequest :=
        ⟨domainID, domain, wid, rid, workflowTypeName, startTimeUnixNano, workflowTimeout⟩
      let store (pubs : List VisibilityMsg) : Except StandbyError Unit × ActionTrace :=
        ((match env.recordStartedResult req with
          | some n => Except.error (StandbyError.generic n)
          | none => Except.ok ()),
         ⟨[], [], pubs, [req], []⟩)
      if env.visibilityProducerConfigured then
        match env.publishResult msg with
        | some n => (Except.error (StandbyError.generic n), ⟨[], [], [msg], [], []⟩)
        | none => store [msg]
      else
        store []

/-- `transferQueueProcessorBase.recordWorkflowClosed`
(`src/service/history/transferQueueProcessorBase.go`): as
`recordWorkflowStarted`, additionally computing
`retentionSeconds = retentionDays · secondsInDay` (0 when the domain is not
found), publishing a `Closed` message carrying close time, close status and
history length, and writing `RecordWorkflowExecutionClosed` with the
retention. -/
def recordWorkflowClosed (env : VisibilityEnv)
    (domainID wid rid workflowTypeName : String)
    (startTimeUnixNano endTimeUnixNano closeStatus historyLength : Int) :
    Except StandbyError Unit × ActionTrace :=
  match env.domainCache domainID with
  | DomainCacheResult.otherErr n => (Except.error (StandbyError.generic n), emptyActionTrace)
  | lookup =>
    let retentionSeconds : Int :=
      match lookup with
      | DomainCacheResult.found entry => entry.retentionDays wid * secondsInDay
      | _ => 0
    let domain : String :=
      match lookup with
      | DomainCacheResult.found entry => entry.name
      | _ => defaultDomainName
    let isSampledEnabled : Bool :=
      match lookup with
      | DomainCacheResult.found entry => entry.isSampledForLongerRetentionEnabled wid
      | _ => false
    let inSample : Bool :=
      match lookup with
      | DomainCacheResult.found entry => entry.isSampledForLongerRetention wid
      | _ => false
    if isSampledEnabled && !inSample then
      (Except.ok (), emptyActionTrace)
    else
      let msg : VisibilityMsg :=
        ⟨VisibilityMsgType.msgClosed, domainID, wid, rid, workflowTypeName,
         startTimeUnixNano, some endTimeUnixNano, some closeStatus, some historyLength⟩
      let req : RecordWorkflowExecutionClosedRequest :=
        ⟨domainID, domain, wid, rid, workflowTypeName, startTimeUnixNano,
         endTimeUnixNano, closeStatus, historyLength, retentionSeconds⟩
      let store (pubs : List VisibilityMsg) : Except StandbyError Unit × ActionTrace :=
        ((match env.recordClosedResult req with
          | some n => Except.error (StandbyError.generic n)
          | none => Except.ok ()),
         ⟨[], [], pubs, [], [req]⟩)
      if env.visibilityProducerConfigured then
        match env.publishResult msg with
        | some n => (Except.error (StandbyError.generic n), ⟨[], [], [msg], [], []⟩)
        | none => store [msg]
      else
        store []

/-- Activity info from mutable state (`GetActivityInfo`). -/
structure ActivityInfo where
  version : Int
  startedID : Int
  scheduleToStartTimeout : Int
deriving DecidableEq, Repr

/-- Decision info from mutable state (`GetPendingDecision`). -/
structure DecisionInfo where
  version : Int
  startedID : Int
deriving DecidableEq, Repr

/-- Request-cancel info from mutable state (`GetRequestCancelInfo`). -/
structure RequestCancelInfo where
  version : Int
deriving DecidableEq, Repr

/-- Signal info from mutable state (`GetSignalInfo`). -/
structure SignalInfo where
  version : Int
deriving DecidableEq, Repr

/-- Child execution info from mutable state (`GetChildExecutionInfo`). -/
structure ChildExecutionInfo where
  version : Int
  startedID : Int
deriving DecidableEq, Repr

/-- The execution-info fields the handlers read (`GetExecutionInfo`). -/
structure ExecutionInfo where
  workflowTypeName : String
  workflowTimeout : Int
  startTimestamp : Int
  closeStatus : Int
  nextEventID : Int
deriving DecidableEq, Repr

/-- Read-only view of workflow mutable state as the handlers consume it.
The per-schedule-id getters return `none` for "not pending". -/
structure MutableState where
  isWorkflowExecutionRunning : Bool
  executionInfo : ExecutionInfo
  lastUpdatedTimestamp : Int
  lastWriteVersion : Int
  nextEventID : Int
  activityInfo : Int → Option ActivityInfo
  pendingDecision : Int → Option DecisionInfo
  requestCancelInfo : Int → Option RequestCancelInfo
  signalInfo : Int → Option SignalInfo
  childExecutionInfo : Int → Option ChildExecutionInfo

/-- Modelled from the spec: `verifyTaskVersion` is declared outside the
extracted sources.  Per the spec's version-verification rule it compares the
task version to the version on the corresponding mutable-state info: equal
versions proceed, a mismatch is dropped silently (the handler then returns
nil). -/
def verifyTaskVersion (infoVersion taskVersion : Int) : Bool :=
  infoVersion == taskVersion

/-- `getWorkflowExecutionCloseStatus` maps the persistence close-status code
to the thrift enum; declared outside the extracted sources.  Modelled from
the spec: the close status is carried through unchanged, so the map is the
identity on the code. -/
def getWorkflowExecutionCloseStatus (status : Int) : Int := status

/-- Environment of one standby handler run: the shard clock
`shard.GetCurrentTime(clusterName)` (nanoseconds), the configured
`StandbyClusterDelay`, the outcome a matching push would report, and the
visibility collaborators. -/
structure StandbyEnv where
  now : Int
  standbyClusterDelay : Int
  addActivityResult : Option Nat
  addDecisionResult : Option Nat
  vis : VisibilityEnv

/-- Outcome of `loadMutableStateForTransferTask`: an error, a nil builder
(task is stale; treated as done), or the loaded state. -/
inductive LoadResult where
  | loadErr (n : Nat)
  | noState
  | loaded (msBuilder : MutableState)

/-- Outcome of `historyCache.getOrCreateWorkflowExecution` followed by the
mutable-state load: acquisition failure returns before the release is
registered; otherwise the load outcome is scoped under the release. -/
inductive AcquireResult where
  | acquireErr (n : Nat)
  | acquired (load : LoadResult)

/-- `transferQueueStandbyProcessorImpl.discardTask`
(`src/service/history/transferQueueStandbyProcessor.go`): discard when
`now.Sub(visibilityTimestamp) > StandbyClusterDelay`.  Since the shard time
already lags wall clock by one `StandbyClusterDelay`, this fires when the
task has been pending for more than two delays of wall-clock time. -/
def discardTask (env : StandbyEnv) (transferTask : TransferTaskInfo) : Bool :=
  decide (env.now - transferTask.visibilityTimestamp > env.standbyClusterDelay)

/-- `transferQueueProcessorBase.pushActivity`: one matching
`AddActivityTask` call, whose outcome the environment supplies. -/
def pushActivity (env : StandbyEnv) (task : TransferTaskInfo) (timeout : Int) :
    Except StandbyError Unit × ActionTrace :=
  ((match env.addActivityResult with
    | some n => Except.error (StandbyError.generic n)
    | none => Except.ok ()),
   ⟨[(task, timeout)], [], [], [], []⟩)

/-- `transferQueueProcessorBase.pushDecision`: one matching
`AddDecisionTask` call. -/
def pushDecision (env : StandbyEnv) (task : TransferTaskInfo)
    (tasklist : String) (timeout : Int) :
    Except StandbyError Unit × ActionTrace :=
  ((match env.addDecisionResult with
    | some n => Except.error (StandbyError.generic n)
    | none => Except.ok ()),
   ⟨[], [(task, tasklist, timeout)], [], [], []⟩)

/-- Argument of the deferred release in `processTransfer`:
`if retError == ErrTaskRetry \x7b release(nil) \x7d else \x7b release(retError) \x7d`. -/
def deferredArg (retError : Except StandbyError Unit) : Option StandbyError :=
  match retError with
  | Except.error StandbyError.taskRetry => none
  | Except.error e => some e
  | Except.ok _ => none

/-- The body of `processTransfer` under the deferred release: load check,
closed-workflow short-circuit, the per-type action, then an explicit
`release(nil)` followed by the post action.  Go's closure-captured mutable
cell (set by the action, read by the post action) is the threaded state of
type `σ`.  Returns the function result, the collaborator trace, and the
release calls made before the deferred one fires. -/
def processTransferBody (σ : Type) (processTaskIfClosed : Bool)
    (load : LoadResult) (initState : σ)
    (action : MutableState → σ → Except StandbyError Unit × σ × ActionTrace)
    (postAction : σ → Except StandbyError Unit × ActionTrace) :
    Except StandbyError Unit × ActionTrace × List (Option StandbyError) :=
  match load with
  | LoadResult.loadErr n => (Except.error (StandbyError.generic n), emptyActionTrace, [])
  | LoadResult.noState => (Except.ok (), emptyActionTrace, [])
  | LoadResult.loaded msBuilder =>
    if !processTaskIfClosed && !msBuilder.isWorkflowExecutionRunning then
      (Except.ok (), emptyActionTrace, [])
    else
      match action msBuilder initState with
      | (Except.error e, _, tr) => (Except.error e, tr, [])
      | (Except.ok _, s, tr) =>
        match postAction s with
        | (res, tr2) => (res, appendActionTrace tr tr2, [none])

/-- `transferQueueStandbyProcessorImpl.processTransfer`
(`src/service/history/transferQueueStandbyProcessor.go`): acquisition
failure returns before the release exists; otherwise the body runs and the
deferred release fires last with `nil` on `ErrTaskRetry` and with the actual
return error otherwise. -/
def processTransfer (σ : Type) (processTaskIfClosed : Bool)
    (acquire : AcquireResult) (initState : σ)
    (action : MutableState → σ → Except StandbyError Unit × σ × ActionTrace)
    (postAction : σ → Except StandbyError Unit × ActionTrace) :
    Except StandbyError Unit × ActionTrace × List (Option StandbyError) :=
  match acquire with
  | AcquireResult.acquireErr n => (Except.error (StandbyError.generic n), emptyActionTrace, [])
  | AcquireResult.acquired load =>
    let body := processTransferBody σ processTaskIfClosed load initState action postAction
    (body.fst, body.snd.fst, body.snd.snd ++ [deferredArg body.fst])

/-- The shared no-op post action `postActionNoOp`. -/
def postActionNoOp {σ : Type} : σ → Except StandbyError Unit × ActionTrace :=
  fun _ => (Except.ok (), emptyActionTrace)

/-- `processActivityTask`: on a pending, version-matching activity whose
started event is missing, retry until the shard clock has passed the
standby delay, then record the capped schedule-to-start timeout for the
post-action matching push. -/
def processActivityTask (env : StandbyEnv) (acquire : AcquireResult)
    (transferTask : TransferTaskInfo) :
    Except StandbyError Unit × ActionTrace × List (Option StandbyError) :=
  processTransfer (Option Int) false acquire none
    (fun msBuilder s =>
      match msBuilder.activityInfo transferTask.scheduleID with
      | none => (Except.ok (), s, emptyActionTrace)
      | some activityInfo =>
        if !(verifyTaskVersion activityInfo.version transferTask.version) then
          (Except.ok (), s, emptyActionTrace)
        else
          let pushToMatching :=
            decide (env.now - transferTask.visibilityTimestamp > env.standbyClusterDelay)
          if activityInfo.startedID = EmptyEventID then
            if !pushToMatching then
              (Except.error StandbyError.taskRetry, s, emptyActionTrace)
            else
              (Except.ok (),
               some (min activityInfo.scheduleToStartTimeout MaxTaskTimeout),
               emptyActionTrace)
          else
            (Except.ok (), s, emptyActionTrace))
    (fun s =>
      match s with
      | none => (Except.ok (), emptyActionTrace)
      | some t => pushActivity env transferTask (min t MaxTaskTimeout))

/-- `processDecisionTask`: as the activity handler, plus
`recordWorkflowStarted` when `scheduleID ≤ FirstEventID + 2` marks the
workflow as open.  In the pending branch the source assigns the record error
to `err` without returning it, so only the record's trace survives there. -/
def processDecisionTask (env : StandbyEnv) (acquire : AcquireResult)
    (transferTask : TransferTaskInfo) :
    Except StandbyError Unit × ActionTrace × List (Option StandbyError) :=
  processTransfer (Option Int × Option String) false acquire (none, none)
    (fun msBuilder s =>
      let executionInfo := msBuilder.executionInfo
      let workflowTimeout := executionInfo.workflowTimeout
      let decisionTimeout := min workflowTimeout MaxTaskTimeout
      let wfTypeName := executionInfo.workflowTypeName
      let startTimestamp := executionInfo.startTimestamp
      let markWorkflowAsOpen := decide (transferTask.scheduleID ≤ FirstEventID + 2)
      match msBuilder.pendingDecision transferTask.scheduleID with
      | none =>
        if markWorkflowAsOpen then
          match recordWorkflowStarted env.vis transferTask.domainID
              transferTask.workflowID transferTask.runID wfTypeName
              startTimestamp workflowTimeout with
          | (Except.error e, tr) => (Except.error e, s, tr)
          | (Except.ok _, tr) => (Except.ok (), s, tr)
        else
          (Except.ok (), s, emptyActionTrace)
      | some decisionInfo =>
        if !(verifyTaskVersion decisionInfo.version transferTask.version) then
          (Except.ok (), s, emptyActionTrace)
        else
          let recTrace : ActionTrace :=
            if markWorkflowAsOpen then
              (recordWorkflowStarted env.vis transferTask.domainID
                transferTask.workflowID transferTask.runID wfTypeName
                startTimestamp workflowTimeout).snd
            else emptyActionTrace
          let pushToMatching :=
            decide (env.now - transferTask.visibilityTimestamp > env.standbyClusterDelay)
          if decisionInfo.startedID = EmptyEventID then
            if !pushToMatching then
              (Except.error StandbyError.taskRetry, s, recTrace)
            else
              (Except.ok (), (some decisionTimeout, some transferTask.taskList), recTrace)
          else
            (Except.ok (), s, recTrace))
    (fun s =>
      match s with
      | (none, _) => (Except.ok (), emptyActionTrace)
      | (some t, tl) =>
        pushDecision env transferTask (tl.getD "") (min t MaxTaskTimeout))

/-- `processCloseExecution`: processes even closed workflows; on a
non-running workflow with matching last-write version it records the close
via `recordWorkflowClosed` (and never replies to the parent). -/
def processCloseExecution (env : StandbyEnv) (acquire : AcquireResult)
    (transferTask : TransferTaskInfo) :
    Except StandbyError Unit × ActionTrace × List (Option StandbyError) :=
  processTransfer Unit true acquire ()
    (fun msBuilder s =>
      if msBuilder.isWorkflowExecutionRunning then
        (Except.ok (), s, emptyActionTrace)
      else
        let executionInfo := msBuilder.executionInfo
        let workflowTypeName := executionInfo.workflowTypeName
        let workflowStartTimestamp := executionInfo.startTimestamp
        let workflowCloseTimestamp := msBuilder.lastUpdatedTimestamp
        let workflowCloseStatus := getWorkflowExecutionCloseStatus executionInfo.closeStatus
        let workflowHistoryLength := msBuilder.nextEventID
        if !(verifyTaskVersion msBuilder.lastWriteVersion transferTask.version) then
          (Except.ok (), s, emptyActionTrace)
        else
          match recordWorkflowClosed env.vis transferTask.domainID
              transferTask.workflowID transferTask.runID workflowTypeName
              workflowStartTimestamp workflowCloseTimestamp workflowCloseStatus
              workflowHistoryLength with
          | (res, tr) => (res, s, tr))
    postActionNoOp

/-- `processCancelExecution`: a pending, version-matching cancel waits for
replication — discard after the window, retry otherwise. -/
def processCancelExecution (env : StandbyEnv) (acquire : AcquireResult)
    (transferTask : TransferTaskInfo) :
    Except StandbyError Unit × ActionTrace × List (Option StandbyError) :=
  processTransfer Unit false acquire ()
    (fun msBuilder s =>
      match msBuilder.requestCancelInfo transferTask.scheduleID with
      | none => (Except.ok (), s, emptyActionTrace)
      | some requestCancelInfo =>
        if !(verifyTaskVersion requestCancelInfo.version transferTask.version) then
          (Except.ok (), s, emptyActionTrace)
        else if discardTask env transferTask then
          (Except.error StandbyError.taskDiscarded, s, emptyActionTrace)
        else
          (Except.error StandbyError.taskRetry, s, emptyActionTrace))
    postActionNoOp

/-- `processSignalExecution`: identical shape to the cancel handler over
`GetSignalInfo`. -/
def processSignalExecution (env : StandbyEnv) (acquire : AcquireResult)
    (transferTask : TransferTaskInfo) :
    Except StandbyError Unit × ActionTrace × List (Option StandbyError) :=
  processTransfer Unit false acquire ()
    (fun msBuilder s =>
      match msBuilder.signalInfo transferTask.scheduleID with
      | none => (Except.ok (), s, emptyActionTrace)
      | some signalInfo =>
        if !(verifyTaskVersion signalInfo.version transferTask.version) then
          (Except.ok (), s, emptyActionTrace)
        else if discardTask env transferTask then
          (Except.error StandbyError.taskDiscarded, s, emptyActionTrace)
        else
          (Except.error StandbyError.taskRetry, s, emptyActionTrace))
    postActionNoOp

/-- `processStartChildExecution`: a pending, version-matching start-child
whose child started event is missing waits for replication — discard after
the window, retry otherwise; once the child has started the task is done. -/
def processStartChildExecution (env : StandbyEnv) (acquire : AcquireResult)
    (transferTask : TransferTaskInfo) :
    Except StandbyError Unit × ActionTrace × List (Option StandbyError) :=
  processTransfer Unit false acquire ()
    (fun msBuilder s =>
      match msBuilder.childExecutionInfo transferTask.scheduleID with
      | none => (Except.ok (), s, emptyActionTrace)
      | some childWorkflowInfo =>
        if !(verifyTaskVersion childWorkflowInfo.version transferTask.version) then
          (Except.ok (), s, emptyActionTrace)
        else if childWorkflowInfo.startedID = EmptyEventID then
          if discardTask env transferTask then
            (Except.error StandbyError.taskDiscarded, s, emptyActionTrace)
          else
            (Except.error StandbyError.taskRetry, s, emptyActionTrace)
        else
          (Except.ok (), s, emptyActionTrace))
    postActionNoOp

/-- A trivial collaborator environment for concrete runs: domain not found,
no producer, every call succeeding. -/
def trivialVisEnv : VisibilityEnv :=
  ⟨fun _ => DomainCacheResult.entityNotExists, false, fun _ => none, fun _ => none,
   fun _ => none⟩

/-- A standby environment with the given shard clock and delay and trivial
collaborators. -/
def mkStandbyEnv (now standbyClusterDelay : Int) : StandbyEnv :=
  ⟨now, standbyClusterDelay, none, none, trivialVisEnv⟩

/-- A signal transfer task at schedule id 7, version 5, visibility
timestamp 0. -/
def signalTask7 : TransferTaskInfo :=
  ⟨"dom", "wf", "run", TaskType.signalExecution, "tl", 7, 5, 0⟩

/-- A running mutable state whose schedule-id-7 infos are all pending at
version 5 with the started event missing. -/
def msPendingAll5 : MutableState :=
  ⟨true, ⟨"wt", 60, 100, 2, 9⟩, 200, 5, 9,
   fun i => if i = 7 then some ⟨5, EmptyEventID, 30⟩ else none,
   fun i => if i = 7 then some ⟨5, EmptyEventID⟩ else none,
   fun i => if i = 7 then some ⟨5⟩ else none,
   fun i => if i = 7 then some ⟨5⟩ else none,
   fun i => if i = 7 then some ⟨5, EmptyEventID⟩ else none⟩

/-- As `msPendingAll5` but with every info at version 6 (a version
mismatch against version-5 tasks) and last-write version 6. -/
def msPendingAll6 : MutableState :=
  ⟨true, ⟨"wt", 60, 100, 2, 9⟩, 200, 6, 9,
   fun i => if i = 7 then some ⟨6, EmptyEventID, 30⟩ else none,
   fun i => if i = 7 then some ⟨6, EmptyEventID⟩ else none,
   fun i => if i = 7 then some ⟨6⟩ else none,
   fun i => if i = 7 then some ⟨6⟩ else none,
   fun i => if i = 7 then some ⟨6, EmptyEventID⟩ else none⟩

/-- A closed (not running) mutable state at last-write version 5 with no
pending infos. -/
def msClosed5 : MutableState :=
  ⟨false, ⟨"wt", 60, 100, 2, 9⟩, 200, 5, 9,
   fun _ => none, fun _ => none, fun _ => none, fun _ => none, fun _ => none⟩

/-- C2: in the after-commit reconciliation of a bulk flush that succeeded,
for an item whose key is the document id concatenated with the tag derived
from the parsed version and whose handle is in flight: a status in
`[200,300)` acks the stored handle and removes the key; status 409 does the
same with no resubmission; any other status resubmits the rebuilt request
and acks nothing (the delete-op rebuild gap is settled separately). -/
theorem bulk_after_success_item_reconciliation
    (st : ESProcessorState) (src : ESRequestSource) (h : ESBulkHeader)
    (res : BulkResponseItem) (msg : Nat)
    (hhead : src.head = some h)
    (hkey : lookupKey st.mapToKafkaMsg
      (res.id ++ convertESVersionToVisibilityMsgType h.version) = some msg) :
    (200 ≤ res.status ∧ res.status < 300 →
      bulkAfterItem st src res =
        ⟨removeKey st.mapToKafkaMsg
           (res.id ++ convertESVersionToVisibilityMsgType h.version),
         st.submitted, st.acked ++ [msg]⟩) ∧
    (res.status = 409 →
      bulkAfterItem st src res =
        ⟨removeKey st.mapToKafkaMsg
           (res.id ++ convertESVersionToVisibilityMsgType h.version),
         st.submitted, st.acked ++ [msg]⟩) ∧
    (∀ r : ESBulkRequest, ¬(200 ≤ res.status ∧ res.status < 300) →
      res.status ≠ 409 → getESRequest src = some r →
      bulkAfterItem st src res = ⟨st.mapToKafkaMsg, st.submitted ++ [r], st.acked⟩) := by
  refine ⟨?_, ?_, ?_⟩
  · intro hs
    simp [bulkAfterItem, hhead, hs, ackKafkaMsg, hkey]
  · intro hs
    by_cases h2 : 200 ≤ res.status ∧ res.status < 300
    · simp [bulkAfterItem, hhead, h2, ackKafkaMsg, hkey]
    · simp [bulkAfterItem, hhead, h2, hs, ackKafkaMsg, hkey]
  · intro r hns hn9 hreq
    simp [bulkAfterItem, hhead, hns, hn9, hreq]

/-- Witness for C2: a 500 status on an in-flight index item resubmits the
rebuilt request and acks nothing. -/
theorem bulk_after_success_item_reconciliation_witness :
    bulkAfterItem ⟨[("rOpen", 42)], [], []⟩
      ⟨some ⟨"index", "idx", "r", "t", 0, "external"⟩, ESBody.noBody⟩ ⟨"r", 500⟩ =
      ⟨[("rOpen", 42)],
       [ESBulkRequest.indexReq ⟨"idx", "t", "r", "external", 0, none⟩], []⟩ :=
  (bulk_after_success_item_reconciliation ⟨[("rOpen", 42)], [], []⟩
      ⟨some ⟨"index", "idx", "r", "t", 0, "external"⟩, ESBody.noBody⟩
      ⟨"index", "idx", "r", "t", 0, "external"⟩ ⟨"r", 500⟩ 42 rfl (by decide)).2.2
    (ESBulkRequest.indexReq ⟨"idx", "t", "r", "external", 0, none⟩)
    (by decide) (by decide) (by decide)

/-- C3: the request parser drops delete rebuilds: on a well-formed bulk
framing whose single-key header names the delete operation, `getESRequest`
returns `none` — while the same framing under the index operation rebuilds
an index request.  Failed delete items are therefore never resubmitted. -/
theorem getESRequest_delete_rebuild_gap :
    getESRequest ⟨some ⟨"delete", "visibility-index", "run1", "t", versionForDelete,
      "external"⟩, ESBody.noBody⟩ = none ∧
    getESRequest ⟨some ⟨"index", "visibility-index", "run1", "t", versionForOpen,
      "external"⟩, ESBody.noBody⟩ =
      some (ESBulkRequest.indexReq
        ⟨"visibility-index", "t", "run1", "external", versionForOpen, none⟩) := by
  constructor <;> rfl

/-- C4: `Add` dedupes by key: a present key acks the new handle immediately
and submits nothing; an absent key stores the handle and submits the
request; hence of two `Add` calls with the same key only the first request
is submitted and the second handle is acked at `Add` time. -/
theorem es_add_dedupes_by_key
    (st : ESProcessorState) (req newReq : ESBulkRequest) (key : String) (m1 m2 : Nat) :
    (containsKey st.mapToKafkaMsg key = true →
      esAdd st req key m1 = ⟨st.mapToKafkaMsg, st.submitted, st.acked ++ [m1]⟩) ∧
    (containsKey st.mapToKafkaMsg key = false →
      esAdd st req key m1 =
        ⟨st.mapToKafkaMsg ++ [(key, m1)], st.submitted ++ [req], st.acked⟩) ∧
    (containsKey st.mapToKafkaMsg key = false →
      esAdd (esAdd st req key m1) newReq key m2 =
        ⟨st.mapToKafkaMsg ++ [(key, m1)], st.submitted ++ [req], st.acked ++ [m2]⟩) := by
  refine ⟨?_, ?_, ?_⟩
  · intro hc; simp [esAdd, hc]
  · intro hc; simp [esAdd, hc]
  · intro hc
    have h2 : containsKey (st.mapToKafkaMsg ++ [(key, m1)]) key = true := by
      simp [containsKey]
    simp [esAdd, hc, h2]

/-- Witness for C4: two adds with key `"k"` on the empty processor. -/
theorem es_add_dedupes_by_key_witness :
    esAdd (esAdd ⟨[], [], []⟩
        (ESBulkRequest.indexReq ⟨"i", "t", "d", "external", 0, none⟩) "k" 1)
      (ESBulkRequest.indexReq ⟨"i", "t", "d", "external", 1, none⟩) "k" 2 =
      ⟨[("k", 1)], [ESBulkRequest.indexReq ⟨"i", "t", "d", "external", 0, none⟩], [2]⟩ := by
  have h := (es_add_dedupes_by_key ⟨[], [], []⟩
      (ESBulkRequest.indexReq ⟨"i", "t", "d", "external", 0, none⟩)
      (ESBulkRequest.indexReq ⟨"i", "t", "d", "external", 1, none⟩) "k" 1 2).2.2
    (by decide)
  simpa using h

/-- C10: `ackKafkaMsg` on a key that is not in flight is a no-op: no handle
is acked, nothing errs, the map is unchanged. -/
theorem ackKafkaMsg_missing_key_noop (st : ESProcessorState) (key : String)
    (habsent : lookupKey st.mapToKafkaMsg key = none) :
    ackKafkaMsg st key = st := by
  simp [ackKafkaMsg, habsent]

/-- Witness for C10: acking an absent key leaves the state untouched. -/
theorem ackKafkaMsg_missing_key_noop_witness :
    ackKafkaMsg ⟨[("aClosed", 7)], [], []⟩ "bOpen" = ⟨[("aClosed", 7)], [], []⟩ :=
  ackKafkaMsg_missing_key_noop ⟨[("aClosed", 7)], [], []⟩ "bOpen" (by decide)

/-- C5 counterexample: a resolved domain with sampled-for-longer-retention
enabled whose workflow is not in the sample makes `recordWorkflowClosed`
return nil with no publish and no store write, even though the domain is
resolved and a visibility producer is configured — refuting the claim that
under those hypotheses exactly one `Closed` message is published and one
close record written. -/
theorem record_closed_sampling_refutes_unconditional_publish :
    recordWorkflowClosed
      ⟨fun _ => DomainCacheResult.found ⟨"dn", fun _ => 3, fun _ => true, fun _ => false⟩,
       true, fun _ => none, fun _ => none, fun _ => none⟩
      "d1" "w1" "r1" "wt" 100 200 2 9 = (Except.ok (), emptyActionTrace) := by
  rfl

/-- C5 (amended): when the domain is resolved (or degraded to defaults on
not-found), a visibility producer is configured, the workflow is not
excluded by the sampled-for-longer-retention filter, and the bus publish
succeeds, `recordWorkflowClosed` publishes exactly one `Closed`
`VisibilityMsg` carrying the identity triple, workflow type, start time,
close time, close status and history length, and then issues exactly one
`RecordWorkflowExecutionClosed` write with
`RetentionSeconds = retentionDays · 86400` (0 when the domain is not
found). -/
theorem record_closed_publish_and_store (env : VisibilityEnv)
    (domainID wid rid tname : String) (startT endT cstatus histLen : Int)
    (hprod : env.visibilityProducerConfigured = true)
    (hpub : env.publishResult
      ⟨VisibilityMsgType.msgClosed, domainID, wid, rid, tname, startT,
       some endT, some cstatus, some histLen⟩ = none) :
    (∀ entry : DomainEntry,
      env.domainCache domainID = DomainCacheResult.found entry →
      (entry.isSampledForLongerRetentionEnabled wid = true →
        entry.isSampledForLongerRetention wid = true) →
      (recordWorkflowClosed env domainID wid rid tname startT endT cstatus histLen).snd =
        ⟨[], [],
         [⟨VisibilityMsgType.msgClosed, domainID, wid, rid, tname, startT,
           some endT, some cstatus, some histLen⟩],
         [],
         [⟨domainID, entry.name, wid, rid, tname, startT, endT, cstatus, histLen,
           entry.retentionDays wid * secondsInDay⟩]⟩) ∧
    (env.domainCache domainID = DomainCacheResult.entityNotExists →
      (recordWorkflowClosed env domainID wid rid tname startT endT cstatus histLen).snd =
        ⟨[], [],
         [⟨VisibilityMsgType.msgClosed, domainID, wid, rid, tname, startT,
           some endT, some cstatus, some histLen⟩],
         [],
         [⟨domainID, defaultDomainName, wid, rid, tname, startT, endT, cstatus, histLen,
           0⟩]⟩) := by
  constructor
  · intro entry hfound hsamp
    have hcond : (entry.isSampledForLongerRetentionEnabled wid &&
        !entry.isSampledForLongerRetention wid) = false := by
      cases henb : entry.isSampledForLongerRetentionEnabled wid with
      | false => simp
      | true => simp [hsamp henb]
    cases hx : env.recordClosedResult
        ⟨domainID, entry.name, wid, rid, tname, startT, endT, cstatus, histLen,
         entry.retentionDays wid * secondsInDay⟩ <;>
      simp [recordWorkflowClosed, hfound, hcond, hprod, hpub, hx]
  · intro hfound
    cases hx : env.recordClosedResult
        ⟨domainID, defaultDomainName, wid, rid, tname, startT, endT, cstatus, histLen,
         0⟩ <;>
      simp [recordWorkflowClosed, hfound, hprod, hpub, hx]

/-- Witness for C5 (amended): a resolved, unfiltered domain with retention 3
days yields one `Closed` publish and one close write with retention
`3 · 86400`. -/
theorem record_closed_publish_and_store_witness :
    (recordWorkflowClosed
      ⟨fun _ => DomainCacheResult.found ⟨"dn", fun _ => 3, fun _ => false, fun _ => false⟩,
       true, fun _ => none, fun _ => none, fun _ => none⟩
      "d1" "w1" "r1" "wt" 100 200 2 9).snd =
      ⟨[], [],
       [⟨VisibilityMsgType.msgClosed, "d1", "w1", "r1", "wt", 100, some 200, some 2,
         some 9⟩],
       [],
       [⟨"d1", "dn", "w1", "r1", "wt", 100, 200, 2, 9, 259200⟩]⟩ := by
  have h := (record_closed_publish_and_store
      ⟨fun _ => DomainCacheResult.found ⟨"dn", fun _ => 3, fun _ => false, fun _ => false⟩,
       true, fun _ => none, fun _ => none, fun _ => none⟩
      "d1" "w1" "r1" "wt" 100 200 2 9 rfl rfl).1
      ⟨"dn", fun _ => 3, fun _ => false, fun _ => false⟩ rfl
      (fun hh => absurd hh (by decide))
  simpa using h

/-- C9: `recordWorkflowClosed` applies the sampling filter: a resolved
domain with sampled-for-longer-retention enabled whose workflow is not in
the sample returns nil with no visibility publish and no primary-store
write. -/
theorem record_closed_sampling_filter (env : VisibilityEnv)
    (domainID wid rid tname : String) (startT endT cstatus histLen : Int)
    (entry : DomainEntry)
    (hfound : env.domainCache domainID = DomainCacheResult.found entry)
    (hen : entry.isSampledForLongerRetentionEnabled wid = true)
    (hnot : entry.isSampledForLongerRetention wid = false) :
    recordWorkflowClosed env domainID wid rid tname startT endT cstatus histLen =
      (Except.ok (), emptyActionTrace) := by
  simp [recordWorkflowClosed, hfound, hen, hnot, emptyActionTrace]

/-- Witness for C9: a sampled-out close is dropped entirely. -/
theorem record_closed_sampling_filter_witness :
    recordWorkflowClosed
      ⟨fun _ => DomainCacheResult.found ⟨"dn2", fun _ => 7, fun _ => true, fun _ => false⟩,
       true, fun _ => none, fun _ => none, fun _ => none⟩
      "d2" "w2" "r2" "wt2" 10 20 1 4 = (Except.ok (), emptyActionTrace) :=
  record_closed_sampling_filter
    ⟨fun _ => DomainCacheResult.found ⟨"dn2", fun _ => 7, fun _ => true, fun _ => false⟩,
     true, fun _ => none, fun _ => none, fun _ => none⟩
    "d2" "w2" "r2" "wt2" 10 20 1 4
    ⟨"dn2", fun _ => 7, fun _ => true, fun _ => false⟩ rfl rfl rfl

/-- C1 counterexample: with `elapsed = shard.GetCurrentTime − visibilityTimestamp`
equal to 1.5 standby delays (15 with delay 10), the claim predicts
`ErrTaskRetry` and `discardTask = false` since `elapsed ≤ 2·StandbyClusterDelay`;
the code discards: `discardTask` is true and the signal handler returns
`ErrTaskDiscarded` on a pending version-matching signal. -/
theorem standby_two_delay_retry_refuted :
    (mkStandbyEnv 15 10).now - signalTask7.visibilityTimestamp ≤
      2 * (mkStandbyEnv 15 10).standbyClusterDelay ∧
    discardTask (mkStandbyEnv 15 10) signalTask7 = true ∧
    (processSignalExecution (mkStandbyEnv 15 10)
      (AcquireResult.acquired (LoadResult.loaded msPendingAll5)) signalTask7).fst =
      Except.error StandbyError.taskDiscarded := by
  refine ⟨by decide, by decide, ?_⟩
  rfl

/-- C1 (amended): for a pending cancel, signal, or start-child (with child
started id empty) task whose version matches the mutable-state info,
`discardTask` returns true exactly when
`shard.GetCurrentTime − visibilityTimestamp > StandbyClusterDelay` (one
delay of shard time — equivalently over two delays of wall-clock time,
since the shard clock itself lags by one delay), and the handler returns
`ErrTaskDiscarded` exactly then and `ErrTaskRetry` otherwise. -/
theorem standby_pending_discard_at_shard_delay (env : StandbyEnv)
    (transferTask : TransferTaskInfo) (msBuilder : MutableState)
    (hrun : msBuilder.isWorkflowExecutionRunning = true) :
    (discardTask env transferTask = true ↔
      env.standbyClusterDelay < env.now - transferTask.visibilityTimestamp) ∧
    (∀ info : RequestCancelInfo,
      msBuilder.requestCancelInfo transferTask.scheduleID = some info →
      info.version = transferTask.version →
      (processCancelExecution env (AcquireResult.acquired (LoadResult.loaded msBuilder))
        transferTask).fst =
        (if env.standbyClusterDelay < env.now - transferTask.visibilityTimestamp
         then Except.error StandbyError.taskDiscarded
         else Except.error StandbyError.taskRetry)) ∧
    (∀ info : SignalInfo,
      msBuilder.signalInfo transferTask.scheduleID = some info →
      info.version = transferTask.version →
      (processSignalExecution env (AcquireResult.acquired (LoadResult.loaded msBuilder))
        transferTask).fst =
        (if env.standbyClusterDelay < env.now - transferTask.visibilityTimestamp
         then Except.error StandbyError.taskDiscarded
         else Except.error StandbyError.taskRetry)) ∧
    (∀ info : ChildExecutionInfo,
      msBuilder.childExecutionInfo transferTask.scheduleID = some info →
      info.version = transferTask.version →
      info.startedID = EmptyEventID →
      (processStartChildExecution env
        (AcquireResult.acquired (LoadResult.loaded msBuilder)) transferTask).fst =
        (if env.standbyClusterDelay < env.now - transferTask.visibilityTimestamp
         then Except.error StandbyError.taskDiscarded
         else Except.error StandbyError.taskRetry)) := by
  refine ⟨by simp [discardTask], ?_, ?_, ?_⟩
  · intro info hpend hv
    by_cases hc : env.standbyClusterDelay < env.now - transferTask.visibilityTimestamp
    · have hd : discardTask env transferTask = true := by simp [discardTask, hc]
      simp [processCancelExecution, processTransfer, processTransferBody, hrun, hpend,
        verifyTaskVersion, hv, hd, hc, deferredArg]
    · have hd : discardTask env transferTask = false := by simp [discardTask, hc]
      simp [processCancelExecution, processTransfer, processTransferBody, hrun, hpend,
        verifyTaskVersion, hv, hd, hc, deferredArg]
  · intro info hpend hv
    by_cases hc : env.standbyClusterDelay < env.now - transferTask.visibilityTimestamp
    · have hd : discardTask env transferTask = true := by simp [discardTask, hc]
      simp [processSignalExecution, processTransfer, processTransferBody, hrun, hpend,
        verifyTaskVersion, hv, hd, hc, deferredArg]
    · have hd : discardTask env transferTask = false := by simp [discardTask, hc]
      simp [processSignalExecution, processTransfer, processTransferBody, hrun, hpend,
        verifyTaskVersion, hv, hd, hc, deferredArg]
  · intro info hpend hv hstart
    by_cases hc : env.standbyClusterDelay < env.now - transferTask.visibilityTimestamp
    · have hd : discardTask env transferTask = true := by simp [discardTask, hc]
      simp [processStartChildExecution, processTransfer, processTransferBody, hrun,
        hpend, verifyTaskVersion, hv, hstart, hd, hc, deferredArg]
    · have hd : discardTask env transferTask = false := by simp [discardTask, hc]
      simp [processStartChildExecution, processTransfer, processTransferBody, hrun,
        hpend, verifyTaskVersion, hv, hstart, hd, hc, deferredArg]

/-- Witness for C1 (amended): shard time 100 with delay 10 discards the
pending signal. -/
theorem standby_pending_discard_at_shard_delay_witness :
    discardTask (mkStandbyEnv 100 10) signalTask7 = true ∧
    (processSignalExecution (mkStandbyEnv 100 10)
      (AcquireResult.acquired (LoadResult.loaded msPendingAll5)) signalTask7).fst =
      Except.error StandbyError.taskDiscarded := by
  have h := standby_pending_discard_at_shard_delay (mkStandbyEnv 100 10) signalTask7
    msPendingAll5 rfl
  refine ⟨h.1.mpr (by decide), ?_⟩
  have h2 := h.2.2.1 ⟨5⟩ rfl rfl
  rw [if_pos (by decide)] at h2
  exact h2

/-- C6: when version verification reports a mismatch between the task
version and the corresponding mutable-state info version (last-write
version for close-execution), every standby per-type handler returns nil —
a terminal done outcome — without pushing to matching, recording
visibility, retrying, or discarding. -/
theorem version_mismatch_silent_drop (env : StandbyEnv)
    (transferTask : TransferTaskInfo) (msBuilder : MutableState) :
    (∀ info : ActivityInfo, msBuilder.isWorkflowExecutionRunning = true →
      msBuilder.activityInfo transferTask.scheduleID = some info →
      info.version ≠ transferTask.version →
      processActivityTask env (AcquireResult.acquired (LoadResult.loaded msBuilder))
        transferTask = (Except.ok (), emptyActionTrace, [none, none])) ∧
    (∀ info : DecisionInfo, msBuilder.isWorkflowExecutionRunning = true →
      msBuilder.pendingDecision transferTask.scheduleID = some info →
      info.version ≠ transferTask.version →
      processDecisionTask env (AcquireResult.acquired (LoadResult.loaded msBuilder))
        transferTask = (Except.ok (), emptyActionTrace, [none, none])) ∧
    (∀ info : RequestCancelInfo, msBuilder.isWorkflowExecutionRunning = true →
      msBuilder.requestCancelInfo transferTask.scheduleID = some info →
      info.version ≠ transferTask.version →
      processCancelExecution env (AcquireResult.acquired (LoadResult.loaded msBuilder))
        transferTask = (Except.ok (), emptyActionTrace, [none, none])) ∧
    (∀ info : SignalInfo, msBuilder.isWorkflowExecutionRunning = true →
      msBuilder.signalInfo transferTask.scheduleID = some info →
      info.version ≠ transferTask.version →
      processSignalExecution env (AcquireResult.acquired (LoadResult.loaded msBuilder))
        transferTask = (Except.ok (), emptyActionTrace, [none, none])) ∧
    (∀ info : ChildExecutionInfo, msBuilder.isWorkflowExecutionRunning = true →
      msBuilder.childExecutionInfo transferTask.scheduleID = some info →
      info.version ≠ transferTask.version →
      processStartChildExecution env (AcquireResult.acquired (LoadResult.loaded msBuilder))
        transferTask = (Except.ok (), emptyActionTrace, [none, none])) ∧
    (msBuilder.isWorkflowExecutionRunning = false →
      msBuilder.lastWriteVersion ≠ transferTask.version →
      processCloseExecution env (AcquireResult.acquired (LoadResult.loaded msBuilder))
        transferTask = (Except.ok (), emptyActionTrace, [none, none])) := by
  refine ⟨?_, ?_, ?_, ?_, ?_, ?_⟩
  · intro info hrun hpend hne
    have hb : (info.version == transferTask.version) = false := by
      simp [hne]
    simp [processActivityTask, processTransfer, processTransferBody, hrun, hpend,
      verifyTaskVersion, hb, appendActionTrace, emptyActionTrace, deferredArg]
  · intro info hrun hpend hne
    have hb : (info.version == transferTask.version) = false := by
      simp [hne]
    simp [processDecisionTask, processTransfer, processTransferBody, hrun, hpend,
      verifyTaskVersion, hb, appendActionTrace, emptyActionTrace, deferredArg]
  · intro info hrun hpend hne
    have hb : (info.version == transferTask.version) = false := by
      simp [hne]
    simp [processCancelExecution, processTransfer, processTransferBody, hrun, hpend,
      verifyTaskVersion, hb, postActionNoOp, appendActionTrace, emptyActionTrace,
      deferredArg]
  · intro info hrun hpend hne
    have hb : (info.version == transferTask.version) = false := by
      simp [hne]
    simp [processSignalExecution, processTransfer, processTransferBody, hrun, hpend,
      verifyTaskVersion, hb, postActionNoOp, appendActionTrace, emptyActionTrace,
      deferredArg]
  · intro info hrun hpend hne
    have hb : (info.version == transferTask.version) = false := by
      simp [hne]
    simp [processStartChildExecution, processTransfer, processTransferBody, hrun, hpend,
      verifyTaskVersion, hb, postActionNoOp, appendActionTrace, emptyActionTrace,
      deferredArg]
  · intro hrun hne
    have hb : (msBuilder.lastWriteVersion == transferTask.version) = false := by
      simp [hne]
    simp [processCloseExecution, processTransfer, processTransferBody, hrun,
      verifyTaskVersion, hb, postActionNoOp, appendActionTrace, emptyActionTrace,
      deferredArg]

/-- Witness for C6: a version-6 pending signal against a version-5 task is
dropped silently. -/
theorem version_mismatch_silent_drop_witness :
    processSignalExecution (mkStandbyEnv 100 10)
      (AcquireResult.acquired (LoadResult.loaded msPendingAll6)) signalTask7 =
      (Except.ok (), emptyActionTrace, [none, none]) :=
  (version_mismatch_silent_drop (mkStandbyEnv 100 10) signalTask7
    msPendingAll6).2.2.2.1 ⟨6⟩ rfl rfl (by decide)

/-- C7: `processTransfer` with `processTaskIfClosed = false` returns nil
immediately on a non-running workflow, for every action and post action —
so none of the activity, decision, cancel, signal, or start-child handlers
invokes its per-type action or post action there — while the
close-execution handler (`processTaskIfClosed = true`) proceeds on the
closed workflow and reaches its visibility record call. -/
theorem closed_workflow_short_circuit (σ : Type) (initState : σ)
    (action : MutableState → σ → Except StandbyError Unit × σ × ActionTrace)
    (postAction : σ → Except StandbyError Unit × ActionTrace)
    (env : StandbyEnv) (transferTask : TransferTaskInfo) (msBuilder : MutableState)
    (hrun : msBuilder.isWorkflowExecutionRunning = false) :
    processTransfer σ false (AcquireResult.acquired (LoadResult.loaded msBuilder))
        initState action postAction = (Except.ok (), emptyActionTrace, [none]) ∧
    processActivityTask env (AcquireResult.acquired (LoadResult.loaded msBuilder))
        transferTask = (Except.ok (), emptyActionTrace, [none]) ∧
    processDecisionTask env (AcquireResult.acquired (LoadResult.loaded msBuilder))
        transferTask = (Except.ok (), emptyActionTrace, [none]) ∧
    processCancelExecution env (AcquireResult.acquired (LoadResult.loaded msBuilder))
        transferTask = (Except.ok (), emptyActionTrace, [none]) ∧
    processSignalExecution env (AcquireResult.acquired (LoadResult.loaded msBuilder))
        transferTask = (Except.ok (), emptyActionTrace, [none]) ∧
    processStartChildExecution env (AcquireResult.acquired (LoadResult.loaded msBuilder))
        transferTask = (Except.ok (), emptyActionTrace, [none]) ∧
    (msBuilder.lastWriteVersion = transferTask.version →
      env.vis.domainCache transferTask.domainID = DomainCacheResult.entityNotExists →
      env.vis.visibilityProducerConfigured = false →
      (processCloseExecution env (AcquireResult.acquired (LoadResult.loaded msBuilder))
        transferTask).snd.fst.closedWrites =
        [⟨transferTask.domainID, defaultDomainName, transferTask.workflowID,
          transferTask.runID, msBuilder.executionInfo.workflowTypeName,
          msBuilder.executionInfo.startTimestamp, msBuilder.lastUpdatedTimestamp,
          msBuilder.executionInfo.closeStatus, msBuilder.nextEventID, 0⟩]) := by
  refine ⟨?_, ?_, ?_, ?_, ?_, ?_, ?_⟩
  · simp [processTransfer, processTransferBody, hrun, deferredArg]
  · simp [processActivityTask, processTransfer, processTransferBody, hrun, deferredArg]
  · simp [processDecisionTask, processTransfer, processTransferBody, hrun, deferredArg]
  · simp [processCancelExecution, processTransfer, processTransferBody, hrun, deferredArg]
  · simp [processSignalExecution, processTransfer, processTransferBody, hrun, deferredArg]
  · simp [processStartChildExecution, processTransfer, processTransferBody, hrun,
      deferredArg]
  · intro hv hdc hprod
    cases hx : env.vis.recordClosedResult
        ⟨transferTask.domainID, defaultDomainName, transferTask.workflowID,
         transferTask.runID, msBuilder.executionInfo.workflowTypeName,
         msBuilder.executionInfo.startTimestamp, msBuilder.lastUpdatedTimestamp,
         msBuilder.executionInfo.closeStatus, msBuilder.nextEventID, 0⟩ <;>
      simp [processCloseExecution, processTransfer, processTransferBody,
        recordWorkflowClosed, verifyTaskVersion, hv, hrun, hdc, hprod, hx,
        getWorkflowExecutionCloseStatus, postActionNoOp, appendActionTrace,
        emptyActionTrace, deferredArg]

/-- Witness for C7: a closed workflow short-circuits the cancel handler and
the close handler records the close. -/
theorem closed_workflow_short_circuit_witness :
    processCancelExecution (mkStandbyEnv 100 10)
      (AcquireResult.acquired (LoadResult.loaded msClosed5)) signalTask7 =
      (Except.ok (), emptyActionTrace, [none]) ∧
    (processCloseExecution (mkStandbyEnv 100 10)
      (AcquireResult.acquired (LoadResult.loaded msClosed5)) signalTask7).snd.fst.closedWrites =
      [⟨"dom", defaultDomainName, "wf", "run", "wt", 100, 200, 2, 9, 0⟩] := by
  have h := closed_workflow_short_circuit Unit () (fun _ s => (Except.ok (), s,
    emptyActionTrace)) postActionNoOp (mkStandbyEnv 100 10) signalTask7 msClosed5 rfl
  refine ⟨h.2.2.2.1, ?_⟩
  have h2 := h.2.2.2.2.2.2 rfl rfl rfl
  simpa using h2

/-- C8: once the workflow execution is acquired, `processTransfer` releases
it on every exit path; the final (deferred) release receives `nil` exactly
when the outcome is success or `ErrTaskRetry`, and receives the actual
error on any other error outcome. -/
theorem release_argument_invariant (σ : Type) (processTaskIfClosed : Bool)
    (load : LoadResult) (initState : σ)
    (action : MutableState → σ → Except StandbyError Unit × σ × ActionTrace)
    (postAction : σ → Except StandbyError Unit × ActionTrace)
    (res : Except StandbyError Unit) (tr : ActionTrace)
    (rel : List (Option StandbyError))
    (hout : processTransfer σ processTaskIfClosed (AcquireResult.acquired load)
      initState action postAction = (res, tr, rel)) :
    rel ≠ [] ∧
    (rel.getLast? = some none ↔
      (res = Except.ok () ∨ res = Except.error StandbyError.taskRetry)) ∧
    (∀ e : StandbyError, res = Except.error e → e ≠ StandbyError.taskRetry →
      rel.getLast? = some (some e)) := by
  have hb : processTransfer σ processTaskIfClosed (AcquireResult.acquired load)
      initState action postAction =
      ((processTransferBody σ processTaskIfClosed load initState action postAction).fst,
       (processTransferBody σ processTaskIfClosed load initState action
         postAction).snd.fst,
       (processTransferBody σ processTaskIfClosed load initState action
         postAction).snd.snd ++
         [deferredArg (processTransferBody σ processTaskIfClosed load initState action
           postAction).fst]) := rfl
  rw [hb] at hout
  have hres := congrArg Prod.fst hout
  have hrel := congrArg (fun p => p.snd.snd) hout
  simp only at hres hrel
  subst hres
  subst hrel
  refine ⟨by simp, ?_, ?_⟩
  · rw [List.getLast?_concat]
    cases hf : (processTransferBody σ processTaskIfClosed load initState action
        postAction).fst with
    | ok u => cases u; simp [deferredArg]
    | error e => cases e <;> simp [deferredArg]
  · intro e he hne
    rw [List.getLast?_concat, he]
    cases e with
    | taskRetry => exact absurd rfl hne
    | taskDiscarded => simp [deferredArg]
    | generic n => simp [deferredArg]

/-- Witness for C8: a load failure `generic 3` makes the deferred release
receive that error. -/
theorem release_argument_invariant_witness :
    (processTransfer Unit false (AcquireResult.acquired (LoadResult.loadErr 3)) ()
      (fun _ s => (Except.ok (), s, emptyActionTrace)) postActionNoOp).snd.snd.getLast? =
      some (some (StandbyError.generic 3)) := by
  have h := release_argument_invariant Unit false (LoadResult.loadErr 3) ()
    (fun _ s => (Except.ok (), s, emptyActionTrace)) postActionNoOp
    (Except.error (StandbyError.generic 3)) emptyActionTrace
    [some (StandbyError.generic 3)] rfl
  have h3 := h.2.2 (StandbyError.generic 3) rfl (by decide)
  exact h3

end Cadence
